import Mathlib

/-!
# Shallow embedding of the workflow orchestration core

This file embeds the workflow state machines of the repository
(`src/workflows/*.go`, `src/unnamed/part_004`, `src/unnamed/part_005`) and the
agent-context permission check (`src/unnamed/part_000`) as executable Lean
definitions, and proves or refutes the frozen claims about them.

Modelling conventions:
* Go `float64` risk scores and amounts are embedded as `ℚ`; the thresholds
  `0.8` and `0.75` become the exact rationals `4/5` and `3/4`.
* `time.Time` values produced by `workflow.Now(ctx)` are embedded as a `Nat`
  parameter `now`; the Go zero value `time.Time{}` is embedded as `0`.
* An activity (or child workflow) call `err := future.Get(ctx, &out)` is
  embedded by passing the call's outcome as an `Except String α` parameter
  (`.error e` embeds `err != nil` with `err.Error() = e`).
* `fmt.Sprintf("Risk score %.2f exceeds threshold", r)` formats a float64;
  the formatting itself is not part of any claim, so it is passed in as an
  uninterpreted parameter `fmtRisk : ℚ → String`.
* Iteration over a Go map (`for k, v := range m`) has unspecified order by the
  Go specification; it is embedded by passing the iteration order as a list
  parameter that ranges over the permutations of the map's key list.
* Workflows dispatch activities; each model also returns the list of dispatch
  events so that claims about which activities run can be stated.
-/

namespace Workflows

/-- Decidable equality of call outcomes (`Except` values). -/
instance exceptDecEq {ε α : Type} [DecidableEq ε] [DecidableEq α] :
    DecidableEq (Except ε α) := fun
  | .error e, .error f =>
    if h : e = f then .isTrue (by rw [h])
    else .isFalse (fun hh => h (Except.error.inj hh))
  | .error _, .ok _ => .isFalse (fun hh => Except.noConfusion hh)
  | .ok _, .error _ => .isFalse (fun hh => Except.noConfusion hh)
  | .ok a, .ok b =>
    if h : a = b then .isTrue (by rw [h])
    else .isFalse (fun hh => h (Except.ok.inj hh))

/-- `Vulnerability` from `src/workflows/security_scan_workflow.go`. -/
structure Vulnerability where
  id : String
  severity : String
  title : String
  description : String
  filePath : String
  lineNumber : Int
  remediation : String
deriving DecidableEq, Repr

/-- `SecurityScanRequest` from `src/workflows/security_scan_workflow.go`. -/
structure SecurityScanRequest where
  repositoryURL : String
  branch : String
  commitSHA : String
  scanTypes : List String
deriving DecidableEq, Repr

/-- `SecurityScanResult` from `src/workflows/security_scan_workflow.go`
(`CompletedAt : time.Time` embedded as `Nat`). -/
structure SecurityScanResult where
  scanID : String
  status : String
  vulnerabilities : List Vulnerability
  completedAt : Nat
  reportURL : String
deriving DecidableEq, Repr

/-- `AgentContext` from `src/workflows/security_scan_workflow.go`. -/
structure AgentContext where
  agentID : String
  sessionID : String
  permissions : List String
deriving DecidableEq, Repr

/-- `hasPermission` from `src/workflows/security_scan_workflow.go` lines
139–146: a linear scan returning true when an element equals the required
token or equals the literal `"security:*"`. -/
def hasPermission (permissions : List String) (required : String) : Bool :=
  permissions.any fun p => p == required || p == "security:*"

/-- The category of a permission token: the characters before the first `':'`
(the whole token when there is none). This is `permission.split(':')[0]` in
`src/unnamed/part_000`. -/
def permissionCategory (permission : String) : String :=
  ⟨permission.data.takeWhile (fun c => c != ':')⟩

/-- `contextHasPermission` from `src/unnamed/part_000` lines 71–81
(TypeScript): if the required permission contains a colon, its category is the
segment before the first colon and `category ++ ":*"` in the set grants it;
otherwise fall through to an exact-membership check. -/
def contextHasPermission (permissions : List String) (permission : String) : Bool :=
  (permission.data.contains ':' &&
    permissions.contains (permissionCategory permission ++ ":*")) ||
  permissions.contains permission

/-- `countBySeverity` from `src/workflows/security_scan_workflow.go` lines
148–156. -/
def countBySeverity (vulns : List Vulnerability) (severity : String) : Nat :=
  vulns.foldl (fun count v => if v.severity == severity then count + 1 else count) 0

/-- `determineStatus` from `src/workflows/security_scan_workflow.go` lines
158–173: a first-match loop over `critical`, then over `high`, then a
non-emptiness check. -/
def determineStatus (vulns : List Vulnerability) : String :=
  if vulns.any (fun v => v.severity == "critical") then "FAILED_CRITICAL"
  else if vulns.any (fun v => v.severity == "high") then "FAILED_HIGH"
  else if vulns.length > 0 then "PASSED_WITH_WARNINGS"
  else "PASSED"

/-- `PaymentRequest` from `src/workflows/payment_workflow.go` (`Amount :
float64` embedded as `ℚ`). -/
structure PaymentRequest where
  orderID : String
  customerID : String
  amount : ℚ
  currency : String
deriving DecidableEq, Repr

/-- `PaymentResult` from `src/workflows/payment_workflow.go` (`ProcessedAt :
time.Time` embedded as `Nat`, zero value `0`). -/
structure PaymentResult where
  transactionID : String
  status : String
  processedAt : Nat
  errorMessage : String
deriving DecidableEq, Repr

/-- `FraudCheckResult` from `src/unnamed/part_004`. -/
structure FraudCheckResult where
  riskScore : ℚ
  flags : List String
  checkedAt : Nat
deriving DecidableEq, Repr

/-- `ChargeResult` from `src/unnamed/part_004`. -/
structure ChargeResult where
  transactionID : String
  amount : ℚ
  currency : String
  chargedAt : Nat
deriving DecidableEq, Repr

/-- Activity / child-call dispatch events of the two payment workflows. -/
inductive PaymentActivity
  | checkFraud (request : PaymentRequest)
  | chargePaymentMethod (request : PaymentRequest)
  | sendPaymentConfirmation (transactionID : String)
  | checkFraudV2 (request : PaymentRequest)
  | validateCard (customerID : String)
  | chargePaymentMethodV2 (request : PaymentRequest)
deriving DecidableEq, Repr

/-- `PaymentWorkflow` (v1) from `src/workflows/payment_workflow.go` lines
35–91.  `fraudOutcome` / `chargeOutcome` are the delivered outcomes of the
`CheckFraud` and `ChargePaymentMethod` activity calls; `fmtRisk` embeds
`fmt.Sprintf("Risk score %.2f exceeds threshold", ...)`.  Returns the Go pair
`(*PaymentResult, error)` as an `Except`, together with the dispatch trace. -/
def PaymentWorkflow (request : PaymentRequest)
    (fraudOutcome : Except String FraudCheckResult)
    (chargeOutcome : Except String ChargeResult)
    (fmtRisk : ℚ → String) (now : Nat) :
    Except String PaymentResult × List PaymentActivity :=
  match fraudOutcome with
  | .error e =>
      (.ok { transactionID := "", status := "FRAUD_CHECK_FAILED",
             processedAt := 0, errorMessage := e },
       [.checkFraud request])
  | .ok fraudResult =>
      if fraudResult.riskScore > 4/5 then
        (.ok { transactionID := "", status := "FRAUD_SUSPECTED", processedAt := 0,
               errorMessage := fmtRisk fraudResult.riskScore },
         [.checkFraud request])
      else
        match chargeOutcome with
        | .error e =>
            (.ok { transactionID := "", status := "CHARGE_FAILED",
                   processedAt := 0, errorMessage := e },
             [.checkFraud request, .chargePaymentMethod request])
        | .ok chargeResult =>
            (.ok { transactionID := chargeResult.transactionID, status := "APPROVED",
                   processedAt := now, errorMessage := "" },
             [.checkFraud request, .chargePaymentMethod request,
              .sendPaymentConfirmation chargeResult.transactionID])

/-- The two completion events of `PaymentWorkflowV2`'s selector: the fraud
future or the card future becoming ready. -/
inductive V2Event
  | fraudDone
  | cardDone
deriving DecidableEq, Repr

/-- The local state `var fraudResult FraudCheckResult; var cardValid bool` of
`PaymentWorkflowV2`, starting at the Go zero values. -/
structure V2State where
  fraudResult : FraudCheckResult
  cardValid : Bool
deriving DecidableEq, Repr

/-- One `selector.Select(ctx)` step of `PaymentWorkflowV2`: the ready
future's callback runs `f.Get(ctx, &target)`.  The callback discards the
error, so on a failed activity the target keeps its current (zero) value. -/
def v2Apply (fraudOutcome : Except String FraudCheckResult)
    (cardOutcome : Except String Bool) (s : V2State) : V2Event → V2State
  | .fraudDone =>
      { s with fraudResult := match fraudOutcome with
          | .ok r => r
          | .error _ => s.fraudResult }
  | .cardDone =>
      { s with cardValid := match cardOutcome with
          | .ok b => b
          | .error _ => s.cardValid }

/-- `PaymentWorkflowV2` from `src/workflows/payment_workflow.go` lines
95–150.  `completionOrder` is the order in which the two parallel futures
complete (the selector loop runs exactly twice, so a run consumes a
permutation of `[fraudDone, cardDone]`).  A v2 charge failure is returned as
a workflow error (`return nil, err`). -/
def PaymentWorkflowV2 (request : PaymentRequest)
    (fraudOutcome : Except String FraudCheckResult)
    (cardOutcome : Except String Bool)
    (chargeOutcome : Except String ChargeResult)
    (completionOrder : List V2Event) (now : Nat) :
    Except String PaymentResult × List PaymentActivity :=
  let s := completionOrder.foldl (v2Apply fraudOutcome cardOutcome)
    { fraudResult := { riskScore := 0, flags := [], checkedAt := 0 }, cardValid := false }
  let dispatched := [PaymentActivity.checkFraudV2 request,
                     PaymentActivity.validateCard request.customerID]
  if !s.cardValid || s.fraudResult.riskScore > 3/4 then
    (.ok { transactionID := "", status := "DECLINED", processedAt := 0,
           errorMessage := "" }, dispatched)
  else
    match chargeOutcome with
    | .error e => (.error e, dispatched ++ [.chargePaymentMethodV2 request])
    | .ok chargeResult =>
        (.ok { transactionID := chargeResult.transactionID, status := "APPROVED",
               processedAt := now, errorMessage := "" },
         dispatched ++ [.chargePaymentMethodV2 request])

/-- `OrderItem` from `src/unnamed/part_005`. -/
structure OrderItem where
  bookID : String
  title : String
  quantity : Int
  price : ℚ
deriving DecidableEq, Repr

/-- `OrderRequest` from `src/unnamed/part_005`. -/
structure OrderRequest where
  orderID : String
  customerID : String
  items : List OrderItem
  totalAmount : ℚ
deriving DecidableEq, Repr

/-- `OrderResult` from `src/unnamed/part_005` (`CompletedAt` as `Nat`). -/
structure OrderResult where
  orderID : String
  status : String
  paymentID : String
  shippingLabel : String
  completedAt : Nat
deriving DecidableEq, Repr

/-- `InventoryResult` from `src/unnamed/part_004`. -/
structure InventoryResult where
  available : Bool
  reservedAt : Nat
  reservationID : String
deriving DecidableEq, Repr

/-- `ShippingResult` from `src/unnamed/part_004`. -/
structure ShippingResult where
  trackingNumber : String
  carrier : String
  estimatedDate : Nat
deriving DecidableEq, Repr

/-- Activity / child-workflow dispatch events of `OrderWorkflow`. -/
inductive OrderStep
  | validateInventory (items : List OrderItem)
  | paymentChildWorkflow (workflowID : String) (request : PaymentRequest)
  | generateShippingLabel (orderID : String)
  | refundPayment (transactionID : String)
deriving DecidableEq, Repr

/-- `OrderWorkflow` from `src/unnamed/part_005` lines 37–113.  The child
payment workflow runs with `WorkflowID = "payment-" + orderID`.  On a
shipping-label failure the refund compensation is dispatched and awaited but
its outcome is discarded (`_ = ...Get(ctx, nil)`), and the original shipping
error is returned. -/
def OrderWorkflow (request : OrderRequest)
    (inventoryOutcome : Except String InventoryResult)
    (paymentOutcome : Except String PaymentResult)
    (shippingOutcome : Except String ShippingResult)
    (refundOutcome : Except String Unit) (now : Nat) :
    Except String OrderResult × List OrderStep :=
  match inventoryOutcome with
  | .error e => (.error e, [.validateInventory request.items])
  | .ok inventoryResult =>
    if !inventoryResult.available then
      (.ok { orderID := request.orderID, status := "INVENTORY_UNAVAILABLE",
             paymentID := "", shippingLabel := "", completedAt := 0 },
       [.validateInventory request.items])
    else
      let paymentRequest : PaymentRequest :=
        { orderID := request.orderID, customerID := request.customerID,
          amount := request.totalAmount, currency := "" }
      let stepsToPayment := [OrderStep.validateInventory request.items,
        OrderStep.paymentChildWorkflow ("payment-" ++ request.orderID) paymentRequest]
      match paymentOutcome with
      | .error e => (.error e, stepsToPayment)
      | .ok paymentResult =>
        if paymentResult.status != "APPROVED" then
          (.ok { orderID := request.orderID, status := "PAYMENT_DECLINED",
                 paymentID := paymentResult.transactionID, shippingLabel := "",
                 completedAt := 0 },
           stepsToPayment)
        else
          match shippingOutcome with
          | .error e =>
              (match refundOutcome with
               | _ => .error e,
               stepsToPayment ++ [.generateShippingLabel request.orderID,
                                  .refundPayment paymentResult.transactionID])
          | .ok shippingResult =>
              (.ok { orderID := request.orderID, status := "COMPLETED",
                     paymentID := paymentResult.transactionID,
                     shippingLabel := shippingResult.trackingNumber,
                     completedAt := now },
               stepsToPayment ++ [.generateShippingLabel request.orderID])

/-- `ScanTypeResult` from `src/unnamed/part_004` (`Duration` as `Nat`). -/
structure ScanTypeResult where
  scanType : String
  vulnerabilities : List Vulnerability
  duration : Nat
deriving DecidableEq, Repr

/-- `ReportResult` from `src/unnamed/part_004`. -/
structure ReportResult where
  reportID : String
  url : String
deriving DecidableEq, Repr

/-- `NotificationRequest` from `src/unnamed/part_004` (`Count : int` as
`Nat`: it carries a non-negative count). -/
structure NotificationRequest where
  type : String
  count : Nat
  scanID : String
  agentID : String
deriving DecidableEq, Repr

/-- Activity dispatch events of `SecurityScanWorkflow`. -/
inductive ScanActivity
  | runSASTScan (request : SecurityScanRequest)
  | runDASTScan (request : SecurityScanRequest)
  | runDependencyScan (request : SecurityScanRequest)
  | runSecretsScan (request : SecurityScanRequest)
  | generateSecurityReport (vulns : List Vulnerability)
  | notifyComplianceTeam (notification : NotificationRequest)
deriving DecidableEq, Repr

/-- The `switch scanType` of `SecurityScanWorkflow`'s fan-out loop: the
activity dispatched for one entry of `ScanTypes` (`none` for an entry that
matches no case). -/
def scanDispatch (request : SecurityScanRequest) (scanType : String) :
    Option ScanActivity :=
  if scanType == "sast" then some (.runSASTScan request)
  else if scanType == "dast" then some (.runDASTScan request)
  else if scanType == "dependency" then some (.runDependencyScan request)
  else if scanType == "secrets" then some (.runSecretsScan request)
  else none

/-- A `ScanTypes` entry matching one of the four cases of the fan-out
`switch`. -/
def recognizedScanType (t : String) : Bool :=
  t == "sast" || t == "dast" || t == "dependency" || t == "secrets"

/-- The key list of the `futures` map after the fan-out loop: recognized
entries of `ScanTypes` in first-insertion order, without duplicates (a later
duplicate overwrites the existing map entry). -/
def futuresKeys (scanTypes : List String) : List String :=
  scanTypes.foldl
    (fun keys t =>
      if recognizedScanType t then
        (if keys.contains t then keys else keys ++ [t])
      else keys) []

/-- The collection loop `for scanType, future := range futures`: fold over
the map iteration order, skipping (`continue`) failed scans and appending
each successful scan's vulnerabilities. -/
def collectVulnerabilities (scanResults : String → Except String ScanTypeResult)
    (iterationOrder : List String) : List Vulnerability :=
  iterationOrder.foldl
    (fun acc scanType =>
      match scanResults scanType with
      | .error _ => acc
      | .ok scanResult => acc ++ scanResult.vulnerabilities) []

/-- `SecurityScanWorkflow` from `src/workflows/security_scan_workflow.go`
lines 48–137.  `scanResults` gives the delivered outcome of the scan
activity of each scan-type label; `iterationOrder` is the order in which the
Go runtime happens to iterate the `futures` map (unspecified by the Go
specification; meaningful runs are permutations of
`futuresKeys request.scanTypes`); `reportOutcome` is the outcome of
`GenerateSecurityReport` — on failure `reportResult` keeps its zero value.
Every return of the Go function is `..., nil`. -/
def SecurityScanWorkflow (request : SecurityScanRequest) (agentCtx : AgentContext)
    (scanResults : String → Except String ScanTypeResult)
    (reportOutcome : Except String ReportResult)
    (iterationOrder : List String) (now : Nat) :
    Except String SecurityScanResult × List ScanActivity :=
  if !hasPermission agentCtx.permissions "security:scan:execute" then
    (.ok { scanID := "", status := "PERMISSION_DENIED", vulnerabilities := [],
           completedAt := 0, reportURL := "" }, [])
  else
    let scanCalls := request.scanTypes.filterMap (scanDispatch request)
    let allVulnerabilities := collectVulnerabilities scanResults iterationOrder
    let reportResult := match reportOutcome with
      | .ok r => r
      | .error _ => { reportID := "", url := "" }
    let criticalCount := countBySeverity allVulnerabilities "critical"
    let notifyCalls :=
      if criticalCount > 0 then
        [ScanActivity.notifyComplianceTeam
          { type := "CRITICAL_VULNERABILITIES", count := criticalCount,
            scanID := reportResult.reportID, agentID := agentCtx.agentID }]
      else []
    (.ok { scanID := reportResult.reportID,
           status := determineStatus allVulnerabilities,
           vulnerabilities := allVulnerabilities,
           completedAt := now,
           reportURL := reportResult.url },
     scanCalls ++ [ScanActivity.generateSecurityReport allVulnerabilities] ++ notifyCalls)

/-- A high-severity sample vulnerability. -/
def sampleHighVuln : Vulnerability :=
  { id := "V-1", severity := "high", title := "t1", description := "d1",
    filePath := "a.go", lineNumber := 1, remediation := "r1" }

/-- A low-severity sample vulnerability. -/
def sampleLowVuln : Vulnerability :=
  { id := "V-2", severity := "low", title := "t2", description := "d2",
    filePath := "b.go", lineNumber := 2, remediation := "r2" }

/-- A fixed assignment of per-scan-type activity results: the sast scan
returns `sampleHighVuln`, the dast scan returns `sampleLowVuln`. -/
def sampleScanResults : String → Except String ScanTypeResult := fun t =>
  if t == "sast" then
    .ok { scanType := "sast", vulnerabilities := [sampleHighVuln], duration := 0 }
  else if t == "dast" then
    .ok { scanType := "dast", vulnerabilities := [sampleLowVuln], duration := 0 }
  else .error "unexpected scan type"

/-- A sample scan request over the sast and dast scan types. -/
def sampleScanRequest : SecurityScanRequest :=
  { repositoryURL := "https://example.com/repo", branch := "main",
    commitSHA := "abc123", scanTypes := ["sast", "dast"] }

/-- A sample agent context holding the security wildcard permission. -/
def sampleAgentCtx : AgentContext :=
  { agentID := "agent-001", sessionID := "session-1", permissions := ["security:*"] }

/-- C1: the claim fails on the Go code.  In `hasPermission`
(`security_scan_workflow.go`), a set containing `"security:*"` grants every
required token — including `"read:only"` and `"payment:charge"`, which are
outside the `security:` category — so `"security:*"` acts as a global
wildcard there.  The sibling TypeScript check `contextHasPermission`
(`src/unnamed/part_000`) implements the category-scoped behaviour the claim
(and the spec invariant) states: it grants `"security:scan:execute"` but
refuses tokens of other categories. -/
theorem hasPermission_security_wildcard_is_global :
    hasPermission ["security:*"] "read:only" = true ∧
    hasPermission ["security:*"] "payment:charge" = true ∧
    contextHasPermission ["security:*"] "read:only" = false ∧
    contextHasPermission ["security:*"] "payment:charge" = false ∧
    contextHasPermission ["security:*"] "security:scan:execute" = true ∧
    hasPermission ["security:*"] "security:scan:execute" = true ∧
    hasPermission ["read:only"] "security:scan:execute" = false := by decide

/-- C2: the claim fails on the Go code.  The collection loop
`for scanType, future := range futures` iterates a Go map, whose iteration
order is unspecified and may differ between two executions of the same
workflow.  With the fixed request `sampleScanRequest` and the fixed
per-scan-type results `sampleScanResults`, the orders `["sast", "dast"]` and
`["dast", "sast"]` are both permutations of the map's key list, yet they
produce different `SecurityScanResult` values (the aggregated vulnerability
lists are reversals of each other). -/
theorem securityScanWorkflow_join_order_dependent :
    List.Perm ["sast", "dast"] (futuresKeys sampleScanRequest.scanTypes) ∧
    List.Perm ["dast", "sast"] (futuresKeys sampleScanRequest.scanTypes) ∧
    (SecurityScanWorkflow sampleScanRequest sampleAgentCtx sampleScanResults
        (.ok { reportID := "SEC-1", url := "u" }) ["sast", "dast"] 7).1
      ≠ (SecurityScanWorkflow sampleScanRequest sampleAgentCtx sampleScanResults
        (.ok { reportID := "SEC-1", url := "u" }) ["dast", "sast"] 7).1 := by
  exact ⟨by decide, by decide, by decide⟩

/-- C3 counterexample: in Payment workflow v1 a `ChargePaymentMethod` failure
after a successful low-risk fraud check (risk 0.5 ≤ 0.8, charge error
`"gateway timeout"` outside the non-retryable set) is returned as the soft
terminal status `CHARGE_FAILED` with a nil workflow error — not as a
workflow-level error, contrary to the claim. -/
theorem paymentWorkflow_charge_failure_returns_soft_status :
    (PaymentWorkflow
        { orderID := "order-1", customerID := "cust-1", amount := 50, currency := "USD" }
        (.ok { riskScore := 1/2, flags := [], checkedAt := 0 })
        (.error "gateway timeout") (fun _ => "") 7).1
      = .ok { transactionID := "", status := "CHARGE_FAILED", processedAt := 0,
              errorMessage := "gateway timeout" } := by
  norm_num [PaymentWorkflow]

/-- C3 amended: in Payment workflow v1 every activity error — the fraud
check's and the charge's alike — is converted to a soft terminal status
(`FRAUD_CHECK_FAILED`, `CHARGE_FAILED`) and the workflow never returns a
workflow-level error. -/
theorem paymentWorkflow_all_activity_errors_soft (request : PaymentRequest)
    (fraudOutcome : Except String FraudCheckResult)
    (chargeOutcome : Except String ChargeResult) (fmtRisk : ℚ → String) (now : Nat) :
    (∃ res, (PaymentWorkflow request fraudOutcome chargeOutcome fmtRisk now).1 = .ok res) ∧
    (∀ e, fraudOutcome = .error e →
      (PaymentWorkflow request fraudOutcome chargeOutcome fmtRisk now).1
        = .ok { transactionID := "", status := "FRAUD_CHECK_FAILED",
                processedAt := 0, errorMessage := e }) ∧
    (∀ fr e, fraudOutcome = .ok fr → fr.riskScore ≤ 4/5 → chargeOutcome = .error e →
      (PaymentWorkflow request fraudOutcome chargeOutcome fmtRisk now).1
        = .ok { transactionID := "", status := "CHARGE_FAILED",
                processedAt := 0, errorMessage := e }) := by
  refine ⟨?_, ?_, ?_⟩
  · cases fraudOutcome with
    | error e => exact ⟨_, rfl⟩
    | ok fr =>
      by_cases hr : fr.riskScore > 4/5
      · simp only [PaymentWorkflow, if_pos hr]
        exact ⟨_, rfl⟩
      · cases chargeOutcome with
        | error e =>
          simp only [PaymentWorkflow, if_neg hr]
          exact ⟨_, rfl⟩
        | ok c =>
          simp only [PaymentWorkflow, if_neg hr]
          exact ⟨_, rfl⟩
  · rintro e rfl
    rfl
  · rintro fr e rfl hle rfl
    simp [PaymentWorkflow, not_lt.mpr hle]

/-- C7: when the caller's permission set contains neither
`"security:scan:execute"` nor `"security:*"`, the security scan workflow
returns the soft terminal status `PERMISSION_DENIED` with a nil error and an
empty dispatch trace (no scan, report, or notification activity runs). -/
theorem securityScanWorkflow_permission_gate (request : SecurityScanRequest)
    (agentCtx : AgentContext) (scanResults : String → Except String ScanTypeResult)
    (reportOutcome : Except String ReportResult) (iterationOrder : List String) (now : Nat)
    (hexec : "security:scan:execute" ∉ agentCtx.permissions)
    (hwild : "security:*" ∉ agentCtx.permissions) :
    SecurityScanWorkflow request agentCtx scanResults reportOutcome iterationOrder now
      = (.ok { scanID := "", status := "PERMISSION_DENIED", vulnerabilities := [],
               completedAt := 0, reportURL := "" }, []) := by
  have hperm : hasPermission agentCtx.permissions "security:scan:execute" = false := by
    cases h : hasPermission agentCtx.permissions "security:scan:execute"
    · rfl
    · rw [hasPermission, List.any_eq_true] at h
      obtain ⟨p, hp, hpe⟩ := h
      simp only [Bool.or_eq_true, beq_iff_eq] at hpe
      rcases hpe with h1 | h1
      · exact absurd (h1 ▸ hp) hexec
      · exact absurd (h1 ▸ hp) hwild
  simp [SecurityScanWorkflow, hperm]

/-- C7 witness: the spec scenario — permissions `["read:only"]` lead to
`PERMISSION_DENIED` with zero activities invoked. -/
theorem securityScanWorkflow_permission_gate_witness :
    ("security:scan:execute" ∉ ["read:only"]) ∧
    ("security:*" ∉ ["read:only"]) ∧
    SecurityScanWorkflow sampleScanRequest
        { agentID := "agent-001", sessionID := "session-1", permissions := ["read:only"] }
        sampleScanResults (.ok { reportID := "SEC-1", url := "u" }) ["sast", "dast"] 7
      = (.ok { scanID := "", status := "PERMISSION_DENIED", vulnerabilities := [],
               completedAt := 0, reportURL := "" }, []) :=
  ⟨by decide, by decide,
   securityScanWorkflow_permission_gate sampleScanRequest
     { agentID := "agent-001", sessionID := "session-1", permissions := ["read:only"] }
     sampleScanResults (.ok { reportID := "SEC-1", url := "u" }) ["sast", "dast"] 7
     (by decide) (by decide)⟩

/-- Permutation invariance of `determineStatus`: the status only looks at
`List.any` and emptiness, both invariant under permutation. -/
theorem determineStatus_perm_eq (a b : List Vulnerability) (hab : a.Perm b) :
    determineStatus a = determineStatus b := by
  have hany : ∀ p : Vulnerability → Bool, a.any p = b.any p := by
    intro p
    cases hb : b.any p
    · rw [List.any_eq_false] at hb ⊢
      exact fun v hv => hb v (hab.mem_iff.mp hv)
    · rw [List.any_eq_true] at hb ⊢
      obtain ⟨v, hv, hpv⟩ := hb
      exact ⟨v, hab.mem_iff.mpr hv, hpv⟩
  unfold determineStatus
  rw [hany, hany, hab.length_eq]

/-- Characterization of the four statuses of `determineStatus` by the
severities present in the list. -/
theorem determineStatus_cases (l : List Vulnerability) :
    (determineStatus l = "FAILED_CRITICAL" ↔ ∃ v ∈ l, v.severity = "critical") ∧
    (determineStatus l = "FAILED_HIGH" ↔
      ((∃ v ∈ l, v.severity = "high") ∧ ∀ v ∈ l, v.severity ≠ "critical")) ∧
    (determineStatus l = "PASSED_WITH_WARNINGS" ↔
      (l ≠ [] ∧ ∀ v ∈ l, v.severity ≠ "critical" ∧ v.severity ≠ "high")) ∧
    (determineStatus l = "PASSED" ↔ l = []) := by
  unfold determineStatus
  split_ifs with h1 h2 h3
  · rw [List.any_eq_true] at h1
    obtain ⟨v, hv, hcv⟩ := h1
    rw [beq_iff_eq] at hcv
    refine ⟨iff_of_true rfl ⟨v, hv, hcv⟩, iff_of_false (by decide) ?_,
      iff_of_false (by decide) ?_, iff_of_false (by decide) ?_⟩
    · rintro ⟨-, hall⟩
      exact hall v hv hcv
    · rintro ⟨-, hall⟩
      exact (hall v hv).1 hcv
    · rintro rfl
      exact List.not_mem_nil v hv
  · rw [List.any_eq_true] at h2
    obtain ⟨v, hv, hhv⟩ := h2
    rw [beq_iff_eq] at hhv
    have hnc : ∀ w ∈ l, w.severity ≠ "critical" := by
      intro w hw hcw
      exact h1 (List.any_eq_true.mpr ⟨w, hw, beq_iff_eq.mpr hcw⟩)
    refine ⟨iff_of_false (by decide) ?_, iff_of_true rfl ⟨⟨v, hv, hhv⟩, hnc⟩,
      iff_of_false (by decide) ?_, iff_of_false (by decide) ?_⟩
    · rintro ⟨w, hw, hcw⟩
      exact hnc w hw hcw
    · rintro ⟨-, hall⟩
      exact (hall v hv).2 hhv
    · rintro rfl
      exact List.not_mem_nil v hv
  · have hne : l ≠ [] := by
      intro hnil
      rw [hnil] at h3
      exact absurd h3 (by decide)
    have hnc : ∀ w ∈ l, w.severity ≠ "critical" := by
      intro w hw hcw
      exact h1 (List.any_eq_true.mpr ⟨w, hw, beq_iff_eq.mpr hcw⟩)
    have hnh : ∀ w ∈ l, w.severity ≠ "high" := by
      intro w hw hhw
      exact h2 (List.any_eq_true.mpr ⟨w, hw, beq_iff_eq.mpr hhw⟩)
    refine ⟨iff_of_false (by decide) ?_, iff_of_false (by decide) ?_,
      iff_of_true rfl ⟨hne, fun w hw => ⟨hnc w hw, hnh w hw⟩⟩,
      iff_of_false (by decide) fun hnil => hne hnil⟩
    · rintro ⟨w, hw, hcw⟩
      exact hnc w hw hcw
    · rintro ⟨⟨w, hw, hhw⟩, -⟩
      exact hnh w hw hhw
  · have hnil : l = [] := by
      cases l with
      | nil => rfl
      | cons x xs => exact absurd (by simp : (x :: xs).length > 0) h3
    subst hnil
    refine ⟨iff_of_false (by decide) ?_, iff_of_false (by decide) ?_,
      iff_of_false (by decide) ?_, iff_of_true rfl rfl⟩
    · rintro ⟨v, hv, -⟩
      exact List.not_mem_nil v hv
    · rintro ⟨⟨v, hv, -⟩, -⟩
      exact List.not_mem_nil v hv
    · rintro ⟨hne, -⟩
      exact hne rfl

/-- C4: the security scan status is derived in fixed priority order —
`FAILED_CRITICAL` on any critical vulnerability, else `FAILED_HIGH` on any
high one, else `PASSED_WITH_WARNINGS` on a non-empty list, else `PASSED` —
and the derived status is invariant under permutation of the input list. -/
theorem determineStatus_priority_and_permutation_invariant
    (l l' : List Vulnerability) (h : l.Perm l') :
    determineStatus l = determineStatus l' ∧
    (determineStatus l = "FAILED_CRITICAL" ↔ ∃ v ∈ l, v.severity = "critical") ∧
    (determineStatus l = "FAILED_HIGH" ↔
      ((∃ v ∈ l, v.severity = "high") ∧ ∀ v ∈ l, v.severity ≠ "critical")) ∧
    (determineStatus l = "PASSED_WITH_WARNINGS" ↔
      (l ≠ [] ∧ ∀ v ∈ l, v.severity ≠ "critical" ∧ v.severity ≠ "high")) ∧
    (determineStatus l = "PASSED" ↔ l = []) :=
  ⟨determineStatus_perm_eq l l' h, determineStatus_cases l⟩

/-- C4 witness: the characterization and permutation invariance evaluated on
a two-element list and its reversal. -/
theorem determineStatus_priority_witness :
    List.Perm [sampleHighVuln, sampleLowVuln] [sampleLowVuln, sampleHighVuln] ∧
    (determineStatus [sampleHighVuln, sampleLowVuln]
        = determineStatus [sampleLowVuln, sampleHighVuln] ∧
     (determineStatus [sampleHighVuln, sampleLowVuln] = "FAILED_CRITICAL" ↔
       ∃ v ∈ [sampleHighVuln, sampleLowVuln], v.severity = "critical") ∧
     (determineStatus [sampleHighVuln, sampleLowVuln] = "FAILED_HIGH" ↔
       ((∃ v ∈ [sampleHighVuln, sampleLowVuln], v.severity = "high") ∧
        ∀ v ∈ [sampleHighVuln, sampleLowVuln], v.severity ≠ "critical")) ∧
     (determineStatus [sampleHighVuln, sampleLowVuln] = "PASSED_WITH_WARNINGS" ↔
       ([sampleHighVuln, sampleLowVuln] ≠ ([] : List Vulnerability) ∧
        ∀ v ∈ [sampleHighVuln, sampleLowVuln],
          v.severity ≠ "critical" ∧ v.severity ≠ "high")) ∧
     (determineStatus [sampleHighVuln, sampleLowVuln] = "PASSED" ↔
       [sampleHighVuln, sampleLowVuln] = ([] : List Vulnerability))) :=
  ⟨by decide,
   determineStatus_priority_and_permutation_invariant
     [sampleHighVuln, sampleLowVuln] [sampleLowVuln, sampleHighVuln] (by decide)⟩

/-- C6: in Payment workflow v1, given a delivered fraud check result, the
workflow returns the soft status `FRAUD_SUSPECTED` (with a nil workflow
error) exactly when the risk score exceeds 0.8; at or below the threshold it
proceeds to dispatch the `ChargePaymentMethod` activity. -/
theorem paymentWorkflow_fraud_suspected_iff (request : PaymentRequest)
    (fr : FraudCheckResult) (chargeOutcome : Except String ChargeResult)
    (fmtRisk : ℚ → String) (now : Nat) :
    ((∃ res, (PaymentWorkflow request (.ok fr) chargeOutcome fmtRisk now).1 = .ok res ∧
        res.status = "FRAUD_SUSPECTED") ↔ fr.riskScore > 4/5) ∧
    (fr.riskScore ≤ 4/5 →
      PaymentActivity.chargePaymentMethod request ∈
        (PaymentWorkflow request (.ok fr) chargeOutcome fmtRisk now).2) := by
  constructor
  · by_cases hr : fr.riskScore > 4/5
    · apply iff_of_true _ hr
      simp only [PaymentWorkflow, if_pos hr]
      exact ⟨_, rfl, rfl⟩
    · apply iff_of_false _ hr
      rintro ⟨res, hres, hstat⟩
      simp only [PaymentWorkflow, if_neg hr] at hres
      cases chargeOutcome with
      | error e =>
        rw [Except.ok.injEq] at hres
        rw [← hres] at hstat
        simp at hstat
      | ok c =>
        rw [Except.ok.injEq] at hres
        rw [← hres] at hstat
        simp at hstat
  · intro hle
    simp only [PaymentWorkflow, if_neg (not_lt.mpr hle)]
    cases chargeOutcome with
    | error e => simp
    | ok c => simp

/-- A sample payment request. -/
def samplePaymentRequest : PaymentRequest :=
  { orderID := "order-123", customerID := "customer-456", amount := 50, currency := "USD" }

/-- A sample successful charge result. -/
def sampleChargeResult : ChargeResult :=
  { transactionID := "txn-abc", amount := 50, currency := "USD", chargedAt := 0 }

/-- C5: in Payment workflow v2 the run is independent of which of the two
parallel results completes first (the decision reads both), and the workflow
returns the soft status `DECLINED` with a nil error exactly when the card is
invalid or the delivered risk score exceeds 0.75. -/
theorem paymentWorkflowV2_decision (request : PaymentRequest) (r : ℚ)
    (flags : List String) (checkedAt : Nat) (v : Bool)
    (chargeOutcome : Except String ChargeResult)
    (completionOrder : List V2Event) (now : Nat)
    (h : completionOrder.Perm [V2Event.fraudDone, V2Event.cardDone]) :
    PaymentWorkflowV2 request (.ok ⟨r, flags, checkedAt⟩) (.ok v) chargeOutcome
        completionOrder now
      = PaymentWorkflowV2 request (.ok ⟨r, flags, checkedAt⟩) (.ok v) chargeOutcome
          [V2Event.fraudDone, V2Event.cardDone] now ∧
    ((∃ res, (PaymentWorkflowV2 request (.ok ⟨r, flags, checkedAt⟩) (.ok v) chargeOutcome
        completionOrder now).1 = .ok res ∧ res.status = "DECLINED")
      ↔ (v = false ∨ r > 3/4)) := by
  have horder : completionOrder = [V2Event.fraudDone, V2Event.cardDone] ∨
      completionOrder = [V2Event.cardDone, V2Event.fraudDone] := by
    rcases completionOrder with _ | ⟨x, _ | ⟨y, _ | ⟨z, t⟩⟩⟩
    · have hl := h.length_eq
      simp at hl
    · have hl := h.length_eq
      simp at hl
    · cases x <;> cases y
      · have hm := h.mem_iff.mpr
          (show V2Event.cardDone ∈ [V2Event.fraudDone, V2Event.cardDone] by decide)
        simp at hm
      · exact Or.inl rfl
      · exact Or.inr rfl
      · have hm := h.mem_iff.mpr
          (show V2Event.fraudDone ∈ [V2Event.fraudDone, V2Event.cardDone] by decide)
        simp at hm
    · have hl := h.length_eq
      simp at hl
  have hord : PaymentWorkflowV2 request (.ok ⟨r, flags, checkedAt⟩) (.ok v) chargeOutcome
      completionOrder now
    = PaymentWorkflowV2 request (.ok ⟨r, flags, checkedAt⟩) (.ok v) chargeOutcome
        [V2Event.fraudDone, V2Event.cardDone] now := by
    rcases horder with rfl | rfl
    · rfl
    · rfl
  have hfc : PaymentWorkflowV2 request (.ok ⟨r, flags, checkedAt⟩) (.ok v) chargeOutcome
      [V2Event.fraudDone, V2Event.cardDone] now
    = if !v || r > 3/4 then
        (.ok { transactionID := "", status := "DECLINED", processedAt := 0,
               errorMessage := "" },
         [.checkFraudV2 request, .validateCard request.customerID])
      else match chargeOutcome with
        | .error e =>
            (.error e, [.checkFraudV2 request, .validateCard request.customerID,
                        .chargePaymentMethodV2 request])
        | .ok c =>
            (.ok { transactionID := c.transactionID, status := "APPROVED",
                   processedAt := now, errorMessage := "" },
             [.checkFraudV2 request, .validateCard request.customerID,
              .chargePaymentMethodV2 request]) := rfl
  refine ⟨hord, ?_⟩
  rw [hord, hfc]
  by_cases hcond : (!v || decide (r > 3/4)) = true
  · rw [if_pos hcond]
    apply iff_of_true ⟨_, rfl, rfl⟩
    simpa [Bool.or_eq_true, Bool.not_eq_true', decide_eq_true_iff] using hcond
  · rw [if_neg hcond]
    apply iff_of_false
    · rintro ⟨res, hres, hstat⟩
      cases chargeOutcome with
      | error e => simp at hres
      | ok c =>
        simp only [Except.ok.injEq] at hres
        rw [← hres] at hstat
        simp at hstat
    · intro hor
      apply hcond
      simpa [Bool.or_eq_true, Bool.not_eq_true', decide_eq_true_iff] using hor

/-- C5 witness: with a valid card, risk score 1 > 0.75 and the completion
order card-first, the run matches the fraud-first run and is declined. -/
theorem paymentWorkflowV2_decision_witness :
    List.Perm [V2Event.cardDone, V2Event.fraudDone]
      [V2Event.fraudDone, V2Event.cardDone] ∧
    (PaymentWorkflowV2 samplePaymentRequest (.ok ⟨1, [], 0⟩) (.ok true)
        (.ok sampleChargeResult) [V2Event.cardDone, V2Event.fraudDone] 3
      = PaymentWorkflowV2 samplePaymentRequest (.ok ⟨1, [], 0⟩) (.ok true)
          (.ok sampleChargeResult) [V2Event.fraudDone, V2Event.cardDone] 3 ∧
    ((∃ res, (PaymentWorkflowV2 samplePaymentRequest (.ok ⟨1, [], 0⟩) (.ok true)
        (.ok sampleChargeResult) [V2Event.cardDone, V2Event.fraudDone] 3).1
          = .ok res ∧ res.status = "DECLINED")
      ↔ (true = false ∨ (1 : ℚ) > 3/4))) :=
  ⟨by decide,
   paymentWorkflowV2_decision samplePaymentRequest 1 [] 0 true (.ok sampleChargeResult)
     [V2Event.cardDone, V2Event.fraudDone] 3 (by decide)⟩

/-- C8: in the Order workflow the `RefundPayment` compensation is dispatched
exactly when the inventory check passed, the child payment workflow returned
status `APPROVED`, and the subsequent `GenerateShippingLabel` activity
failed; in particular no refund is dispatched on the `INVENTORY_UNAVAILABLE`
or `PAYMENT_DECLINED` terminal paths. -/
theorem orderWorkflow_refund_compensation_invariant (request : OrderRequest)
    (inventoryOutcome : Except String InventoryResult)
    (paymentOutcome : Except String PaymentResult)
    (shippingOutcome : Except String ShippingResult)
    (refundOutcome : Except String Unit) (now : Nat) :
    ((∃ txn, OrderStep.refundPayment txn ∈
        (OrderWorkflow request inventoryOutcome paymentOutcome shippingOutcome
          refundOutcome now).2) ↔
      ((∃ inv, inventoryOutcome = .ok inv ∧ inv.available = true) ∧
       (∃ pay, paymentOutcome = .ok pay ∧ pay.status = "APPROVED") ∧
       (∃ e, shippingOutcome = .error e))) ∧
    (∀ res, (OrderWorkflow request inventoryOutcome paymentOutcome shippingOutcome
        refundOutcome now).1 = .ok res →
      res.status = "INVENTORY_UNAVAILABLE" ∨ res.status = "PAYMENT_DECLINED" →
      ∀ txn, OrderStep.refundPayment txn ∉
        (OrderWorkflow request inventoryOutcome paymentOutcome shippingOutcome
          refundOutcome now).2) := by
  cases inventoryOutcome with
  | error e =>
    constructor
    · apply iff_of_false
      · rintro ⟨txn, htxn⟩
        simp [OrderWorkflow] at htxn
      · rintro ⟨⟨inv, hinv, -⟩, -, -⟩
        simp at hinv
    · intro res hres
      simp [OrderWorkflow] at hres
  | ok inv =>
    by_cases ha : inv.available = true
    · cases paymentOutcome with
      | error e =>
        constructor
        · apply iff_of_false
          · rintro ⟨txn, htxn⟩
            simp [OrderWorkflow, ha] at htxn
          · rintro ⟨-, ⟨pay, hpay, -⟩, -⟩
            simp at hpay
        · intro res hres
          simp [OrderWorkflow, ha] at hres
      | ok pay =>
        by_cases hp : pay.status = "APPROVED"
        · cases shippingOutcome with
          | error e =>
            constructor
            · apply iff_of_true
              · exact ⟨pay.transactionID, by simp [OrderWorkflow, ha, hp]⟩
              · exact ⟨⟨inv, rfl, ha⟩, ⟨pay, rfl, hp⟩, ⟨e, rfl⟩⟩
            · intro res hres
              simp [OrderWorkflow, ha, hp] at hres
          | ok ship =>
            constructor
            · apply iff_of_false
              · rintro ⟨txn, htxn⟩
                simp [OrderWorkflow, ha, hp] at htxn
              · rintro ⟨-, -, ⟨e, he⟩⟩
                simp at he
            · intro res hres hstat
              simp only [OrderWorkflow, ha, hp] at hres
              simp at hres
              rw [← hres] at hstat
              simp at hstat
        · constructor
          · apply iff_of_false
            · rintro ⟨txn, htxn⟩
              simp [OrderWorkflow, ha, bne_iff_ne.mpr hp] at htxn
            · rintro ⟨-, ⟨pay', hpay', hps'⟩, -⟩
              rw [Except.ok.injEq] at hpay'
              rw [← hpay'] at hps'
              exact hp hps'
          · intro res hres hstat txn
            simp [OrderWorkflow, ha, bne_iff_ne.mpr hp]
    · have ha' : inv.available = false := by
        cases hb : inv.available
        · rfl
        · exact absurd hb ha
      constructor
      · apply iff_of_false
        · rintro ⟨txn, htxn⟩
          simp [OrderWorkflow, ha'] at htxn
        · rintro ⟨⟨inv', hinv', hav'⟩, -, -⟩
          rw [Except.ok.injEq] at hinv'
          rw [← hinv'] at hav'
          exact ha hav'
      · intro res hres hstat txn
        simp [OrderWorkflow, ha']

/-- C9: when shipping-label generation fails after an available inventory
check and an `APPROVED` child payment, the Order workflow returns the
original shipping error as its terminal error (no soft status), and the
entire run — result and dispatch trace — is unchanged by whether the awaited
`RefundPayment` compensation succeeds or fails. -/
theorem orderWorkflow_shipping_error_propagates (request : OrderRequest)
    (inv : InventoryResult) (pay : PaymentResult) (e : String)
    (refundOutcome refundOutcome' : Except String Unit) (now : Nat)
    (hinv : inv.available = true) (hpay : pay.status = "APPROVED") :
    (OrderWorkflow request (.ok inv) (.ok pay) (.error e) refundOutcome now).1
      = .error e ∧
    OrderWorkflow request (.ok inv) (.ok pay) (.error e) refundOutcome now
      = OrderWorkflow request (.ok inv) (.ok pay) (.error e) refundOutcome' now := by
  constructor
  · simp [OrderWorkflow, hinv, hpay]
  · cases refundOutcome <;> cases refundOutcome' <;> rfl

/-- A sample order request. -/
def sampleOrderRequest : OrderRequest :=
  { orderID := "order-123", customerID := "customer-456", items := [], totalAmount := 99 }

/-- A sample available-inventory result. -/
def sampleInventoryOk : InventoryResult :=
  { available := true, reservedAt := 0, reservationID := "RES-1" }

/-- A sample approved child payment result. -/
def samplePaymentApproved : PaymentResult :=
  { transactionID := "txn-789", status := "APPROVED", processedAt := 0, errorMessage := "" }

/-- C9 witness: a concrete shipping failure after an approved payment,
with a succeeding and a failing refund. -/
theorem orderWorkflow_shipping_error_propagates_witness :
    sampleInventoryOk.available = true ∧
    samplePaymentApproved.status = "APPROVED" ∧
    ((OrderWorkflow sampleOrderRequest (.ok sampleInventoryOk) (.ok samplePaymentApproved)
        (.error "label printer down") (.ok ()) 3).1 = .error "label printer down" ∧
     OrderWorkflow sampleOrderRequest (.ok sampleInventoryOk) (.ok samplePaymentApproved)
        (.error "label printer down") (.ok ()) 3
      = OrderWorkflow sampleOrderRequest (.ok sampleInventoryOk) (.ok samplePaymentApproved)
        (.error "label printer down") (.error "refund gateway down") 3) :=
  ⟨rfl, rfl,
   orderWorkflow_shipping_error_propagates sampleOrderRequest sampleInventoryOk
     samplePaymentApproved "label printer down" (.ok ()) (.error "refund gateway down") 3
     rfl rfl⟩

/-- The fan-out fold of `futuresKeys` over an arbitrary accumulated key
list: filtering out unrecognized entries does not change it. -/
theorem futuresKeys_filter_aux (ts acc : List String) :
    (ts.filter fun t => recognizedScanType t).foldl
        (fun keys t =>
          if recognizedScanType t then
            (if keys.contains t then keys else keys ++ [t])
          else keys) acc
      = ts.foldl
        (fun keys t =>
          if recognizedScanType t then
            (if keys.contains t then keys else keys ++ [t])
          else keys) acc := by
  induction ts generalizing acc with
  | nil => rfl
  | cons t ts ih =>
    by_cases h : recognizedScanType t = true
    · simp only [List.filter_cons, h, if_true, List.foldl_cons]
      exact ih _
    · simp only [List.filter_cons, h, Bool.false_eq_true, ite_false, List.foldl_cons]
      exact ih acc

/-- Removing unrecognized entries leaves the `futures` key list unchanged. -/
theorem futuresKeys_filter (ts : List String) :
    futuresKeys (ts.filter fun t => recognizedScanType t) = futuresKeys ts :=
  futuresKeys_filter_aux ts []

/-- Removing unrecognized entries leaves the dispatched scan activities
unchanged: the `switch` dispatches nothing for an unrecognized entry. -/
theorem filterMap_scanDispatch_filter (request : SecurityScanRequest)
    (ts : List String) :
    (ts.filter fun t => recognizedScanType t).filterMap (scanDispatch request)
      = ts.filterMap (scanDispatch request) := by
  induction ts with
  | nil => rfl
  | cons t ts ih =>
    by_cases h : recognizedScanType t = true
    · simp only [List.filter_cons, h, if_true, List.filterMap_cons]
      rw [ih]
    · have hnone : scanDispatch request t = none := by
        simp only [recognizedScanType, Bool.or_eq_true, beq_iff_eq, not_or] at h
        obtain ⟨⟨⟨h1, h2⟩, h3⟩, h4⟩ := h
        simp [scanDispatch, h1, h2, h3, h4]
      simp only [List.filter_cons, h, Bool.false_eq_true, ite_false,
        List.filterMap_cons, hnone]
      exact ih

/-- C10: entries of `ScanTypes` other than the four recognized labels are
silently ignored: the workflow result is the same as for the request with
those entries removed, the `futures` map has the same keys, the dispatched
scan activities are the same (none is dispatched for an unrecognized entry),
and no error is produced. -/
theorem securityScanWorkflow_ignores_unrecognized
    (repositoryURL branch commitSHA : String) (scanTypes : List String)
    (agentCtx : AgentContext) (scanResults : String → Except String ScanTypeResult)
    (reportOutcome : Except String ReportResult) (iterationOrder : List String)
    (now : Nat) :
    (SecurityScanWorkflow
        { repositoryURL := repositoryURL, branch := branch, commitSHA := commitSHA,
          scanTypes := scanTypes.filter (fun t => recognizedScanType t) }
        agentCtx scanResults reportOutcome iterationOrder now).1
      = (SecurityScanWorkflow
        { repositoryURL := repositoryURL, branch := branch, commitSHA := commitSHA,
          scanTypes := scanTypes }
        agentCtx scanResults reportOutcome iterationOrder now).1 ∧
    futuresKeys (scanTypes.filter (fun t => recognizedScanType t))
      = futuresKeys scanTypes ∧
    (∀ request : SecurityScanRequest,
      (scanTypes.filter (fun t => recognizedScanType t)).filterMap
          (scanDispatch request)
        = scanTypes.filterMap (scanDispatch request)) ∧
    (∃ res, (SecurityScanWorkflow
        { repositoryURL := repositoryURL, branch := branch, commitSHA := commitSHA,
          scanTypes := scanTypes }
        agentCtx scanResults reportOutcome iterationOrder now).1 = .ok res) := by
  refine ⟨?_, futuresKeys_filter scanTypes,
    fun request => filterMap_scanDispatch_filter request scanTypes, ?_⟩
  · cases h : hasPermission agentCtx.permissions "security:scan:execute" <;>
      simp [SecurityScanWorkflow, h]
  · cases h : hasPermission agentCtx.permissions "security:scan:execute"
    · simp only [SecurityScanWorkflow, h, Bool.not_false, if_true]
      exact ⟨_, rfl⟩
    · simp only [SecurityScanWorkflow, h, Bool.not_true, Bool.false_eq_true, ite_false]
      exact ⟨_, rfl⟩

/-- C3 witness: the amended statement evaluated at a failed fraud check. -/
theorem paymentWorkflow_all_activity_errors_soft_witness :
    (∃ res, (PaymentWorkflow samplePaymentRequest (.error "fraud svc down")
        (.ok sampleChargeResult) (fun _ => "") 3).1 = .ok res) ∧
    (∀ e, (Except.error "fraud svc down" : Except String FraudCheckResult) = .error e →
      (PaymentWorkflow samplePaymentRequest (.error "fraud svc down")
          (.ok sampleChargeResult) (fun _ => "") 3).1
        = .ok { transactionID := "", status := "FRAUD_CHECK_FAILED",
                processedAt := 0, errorMessage := e }) ∧
    (∀ fr e, (Except.error "fraud svc down" : Except String FraudCheckResult) = .ok fr →
      fr.riskScore ≤ 4/5 →
      (Except.ok sampleChargeResult : Except String ChargeResult) = .error e →
      (PaymentWorkflow samplePaymentRequest (.error "fraud svc down")
          (.ok sampleChargeResult) (fun _ => "") 3).1
        = .ok { transactionID := "", status := "CHARGE_FAILED",
                processedAt := 0, errorMessage := e }) :=
  paymentWorkflow_all_activity_errors_soft samplePaymentRequest (.error "fraud svc down")
    (.ok sampleChargeResult) (fun _ => "") 3

/-- C6 witness: the threshold statement evaluated at risk score 0.9. -/
theorem paymentWorkflow_fraud_suspected_iff_witness :
    ((∃ res, (PaymentWorkflow samplePaymentRequest (.ok ⟨9/10, [], 0⟩)
        (.ok sampleChargeResult) (fun _ => "msg") 3).1 = .ok res ∧
        res.status = "FRAUD_SUSPECTED") ↔ (9/10 : ℚ) > 4/5) ∧
    ((9/10 : ℚ) ≤ 4/5 →
      PaymentActivity.chargePaymentMethod samplePaymentRequest ∈
        (PaymentWorkflow samplePaymentRequest (.ok ⟨9/10, [], 0⟩)
          (.ok sampleChargeResult) (fun _ => "msg") 3).2) :=
  paymentWorkflow_fraud_suspected_iff samplePaymentRequest ⟨9/10, [], 0⟩
    (.ok sampleChargeResult) (fun _ => "msg") 3

/-- C8 witness: the compensation invariant evaluated on the shipping-failure
path after an approved payment. -/
theorem orderWorkflow_refund_compensation_invariant_witness :
    ((∃ txn, OrderStep.refundPayment txn ∈
        (OrderWorkflow sampleOrderRequest (.ok sampleInventoryOk)
          (.ok samplePaymentApproved) (.error "label printer down") (.ok ()) 3).2) ↔
      ((∃ inv, (Except.ok sampleInventoryOk : Except String InventoryResult)
          = .ok inv ∧ inv.available = true) ∧
       (∃ pay, (Except.ok samplePaymentApproved : Except String PaymentResult)
          = .ok pay ∧ pay.status = "APPROVED") ∧
       (∃ e, (Except.error "label printer down" : Except String ShippingResult)
          = .error e))) ∧
    (∀ res, (OrderWorkflow sampleOrderRequest (.ok sampleInventoryOk)
        (.ok samplePaymentApproved) (.error "label printer down") (.ok ()) 3).1
          = .ok res →
      res.status = "INVENTORY_UNAVAILABLE" ∨ res.status = "PAYMENT_DECLINED" →
      ∀ txn, OrderStep.refundPayment txn ∉
        (OrderWorkflow sampleOrderRequest (.ok sampleInventoryOk)
          (.ok samplePaymentApproved) (.error "label printer down") (.ok ()) 3).2) :=
  orderWorkflow_refund_compensation_invariant sampleOrderRequest (.ok sampleInventoryOk)
    (.ok samplePaymentApproved) (.error "label printer down") (.ok ()) 3

/-- C10 witness: the ignore property evaluated on a request containing the
unrecognized entry `"bogus"`. -/
theorem securityScanWorkflow_ignores_unrecognized_witness :
    (SecurityScanWorkflow
        { repositoryURL := "https://example.com/repo", branch := "main",
          commitSHA := "abc123",
          scanTypes := ["sast", "bogus", "dast"].filter (fun t => recognizedScanType t) }
        sampleAgentCtx sampleScanResults (.ok { reportID := "SEC-1", url := "u" })
        ["sast", "dast"] 7).1
      = (SecurityScanWorkflow
        { repositoryURL := "https://example.com/repo", branch := "main",
          commitSHA := "abc123", scanTypes := ["sast", "bogus", "dast"] }
        sampleAgentCtx sampleScanResults (.ok { reportID := "SEC-1", url := "u" })
        ["sast", "dast"] 7).1 ∧
    futuresKeys (["sast", "bogus", "dast"].filter (fun t => recognizedScanType t))
      = futuresKeys ["sast", "bogus", "dast"] ∧
    (∀ request : SecurityScanRequest,
      (["sast", "bogus", "dast"].filter (fun t => recognizedScanType t)).filterMap
          (scanDispatch request)
        = ["sast", "bogus", "dast"].filterMap (scanDispatch request)) ∧
    (∃ res, (SecurityScanWorkflow
        { repositoryURL := "https://example.com/repo", branch := "main",
          commitSHA := "abc123", scanTypes := ["sast", "bogus", "dast"] }
        sampleAgentCtx sampleScanResults (.ok { reportID := "SEC-1", url := "u" })
        ["sast", "dast"] 7).1 = .ok res) :=
  securityScanWorkflow_ignores_unrecognized "https://example.com/repo" "main" "abc123"
    ["sast", "bogus", "dast"] sampleAgentCtx sampleScanResults
    (.ok { reportID := "SEC-1", url := "u" }) ["sast", "dast"] 7

end Workflows
